import Mathlib

/-!
Verification of the Tephra documentation configuration (`build/mcssconf.py`).

The source file declares six module-level constants consumed by the m.css
doxygen theme: `DOXYFILE`, `MAIN_PROJECT_URL`, `LINKS_NAVBAR1`,
`LINKS_NAVBAR2`, `STYLESHEETS` and `THEME_COLOR`.  We embed each constant
verbatim and prove the structural properties stated by the specification.
-/

namespace Tephra

/-- A navigation-bar entry.  In the source each entry is a Python tuple:
either a triple `(label, target, sublinks)` or a pair `(html, sublinks)`
(the latter form carries raw HTML markup instead of a label/target pair). -/
inductive NavEntry where
  | withTarget (label target : String) (sub : List NavEntry)
  | htmlOnly (html : String) (sub : List NavEntry)

/-- Number of components of the underlying Python tuple. -/
def NavEntry.numComponents : NavEntry → Nat
  | .withTarget _ _ _ => 3
  | .htmlOnly _ _ => 2

/-- The display text (first tuple component). -/
def NavEntry.label : NavEntry → String
  | .withTarget l _ _ => l
  | .htmlOnly h _ => h

/-- The nested sub-entry list (last tuple component). -/
def NavEntry.sub : NavEntry → List NavEntry
  | .withTarget _ _ s => s
  | .htmlOnly _ s => s

/-- `DOXYFILE = 'Doxyfile-mcss'` (mcssconf.py line 4). -/
def DOXYFILE : String := "Doxyfile-mcss"

/-- `MAIN_PROJECT_URL` (mcssconf.py line 5). -/
def MAIN_PROJECT_URL : String := "https://github.com/Dolkar/Tephra"

/-- `LINKS_NAVBAR1` (mcssconf.py lines 6-9). -/
def LINKS_NAVBAR1 : List NavEntry :=
  [ .withTarget "User Guide" "user-guide" [],
    .withTarget "Examples" "examples" [] ]

/-- `LINKS_NAVBAR2` (mcssconf.py lines 10-14).  Note: the second item of the
Python list is a two-element tuple whose first component is raw HTML. -/
def LINKS_NAVBAR2 : List NavEntry :=
  [ .withTarget "Changelog" "changelog" [],
    .htmlOnly "<a href=\"https://github.com/Dolkar/Tephra/discussions\">Discussions</a>" [],
    .withTarget "API" "annotated" [] ]

/-- `STYLESHEETS` (mcssconf.py lines 16-26), in declared order. -/
def STYLESHEETS : List String :=
  [ "https://fonts.googleapis.com/css?family=Source+Sans+Pro:400,400i,600,600i%7CSource+Code+Pro:400,400i,600",
    "./mcss/css/m-dark-tephra.css",
    "./mcss/css/m-documentation.css",
    "./mcss/css/m-theme-dark-tephra.css",
    "./mcss/css/m-grid.css",
    "./mcss/css/m-components.css",
    "./mcss/css/m-layout.css",
    "./mcss/css/pygments-dark.css",
    "./mcss/css/pygments-console.css" ]

/-- `THEME_COLOR = '#2c1b15'` (mcssconf.py line 27). -/
def THEME_COLOR : String := "#2c1b15"

/-- The configuration record: the six module-level constants of
mcssconf.py gathered into one record, as described by the data model. -/
structure ConfigRecord where
  doxyfile : String
  mainProjectUrl : String
  linksNavbar1 : List NavEntry
  linksNavbar2 : List NavEntry
  stylesheets : List String
  themeColor : String

/-- The concrete configuration record declared by mcssconf.py. -/
def tephraConfig : ConfigRecord :=
  { doxyfile := DOXYFILE,
    mainProjectUrl := MAIN_PROJECT_URL,
    linksNavbar1 := LINKS_NAVBAR1,
    linksNavbar2 := LINKS_NAVBAR2,
    stylesheets := STYLESHEETS,
    themeColor := THEME_COLOR }

/-- A hexadecimal digit (0-9, a-f, A-F). -/
def isHexDigitChar (c : Char) : Bool :=
  c.isDigit || ('a' ≤ c && c ≤ 'f') || ('A' ≤ c && c ≤ 'F')

/-- The pattern `#` followed by exactly 6 hexadecimal digits. -/
def isHexColorFormat (s : String) : Bool :=
  match s.toList with
  | '#' :: rest => rest.length == 6 && rest.all isHexDigitChar
  | _ => false

/-- Whether the second character list begins with the first one. -/
def charListHasStart : List Char → List Char → Bool
  | [], _ => true
  | _ :: _, [] => false
  | p :: ps, c :: cs => p == c && charListHasStart ps cs

/-- An absolute URL: begins with an `http` or `https` scheme. -/
def isAbsoluteUrl (s : String) : Bool :=
  charListHasStart "http://".toList s.toList ||
  charListHasStart "https://".toList s.toList

/-- A path relative to the output directory, written `./...` in the source. -/
def isOutputRelativePath (s : String) : Bool :=
  charListHasStart "./".toList s.toList

/-- Modelled from the spec: the repository contains no serializer, so the
serialized form of the record (spec section 8, round-trip property) is
modelled as a tree of strings and lists, mirroring how the Python module
nests strings, tuples and lists. -/
inductive Value where
  | vstr : String → Value
  | vlist : List Value → Value

mutual

/-- Modelled from the spec: serialization of one navbar entry (no serializer
exists in the repository).  A triple becomes a three-element list, a pair a
two-element list, with the sub-entry list serialized recursively. -/
def serializeEntry : NavEntry → Value
  | .withTarget l t sub => .vlist [.vstr l, .vstr t, .vlist (serializeEntryList sub)]
  | .htmlOnly h sub => .vlist [.vstr h, .vlist (serializeEntryList sub)]

/-- Modelled from the spec: serialization of a list of navbar entries. -/
def serializeEntryList : List NavEntry → List Value
  | [] => []
  | e :: es => serializeEntry e :: serializeEntryList es

end

mutual

/-- Modelled from the spec: fuel-bounded parser inverting `serializeEntry`
(no parser exists in the repository). -/
def parseEntryFuel : Nat → Value → Option NavEntry
  | 0, _ => none
  | n + 1, .vlist [.vstr l, .vstr t, .vlist subs] =>
      (parseEntryListFuel n subs).map (fun s => NavEntry.withTarget l t s)
  | n + 1, .vlist [.vstr h, .vlist subs] =>
      (parseEntryListFuel n subs).map (fun s => NavEntry.htmlOnly h s)
  | _ + 1, _ => none

/-- Modelled from the spec: fuel-bounded parser for a list of entries. -/
def parseEntryListFuel : Nat → List Value → Option (List NavEntry)
  | 0, _ => none
  | _ + 1, [] => some []
  | n + 1, v :: vs => do
      let e ← parseEntryFuel n v
      let es ← parseEntryListFuel n vs
      pure (e :: es)

end

mutual

/-- Size of a serialized value, used as parsing fuel. -/
def valueSize : Value → Nat
  | .vstr _ => 1
  | .vlist vs => 1 + valueListSize vs

/-- Size of a list of serialized values. -/
def valueListSize : List Value → Nat
  | [] => 1
  | v :: vs => 1 + valueSize v + valueListSize vs

end

/-- Modelled from the spec: parser for a list of entries, with enough fuel
for its whole input. -/
def parseEntryList (vs : List Value) : Option (List NavEntry) :=
  parseEntryListFuel (valueListSize vs + 1) vs

/-- Modelled from the spec: parser for a serialized stylesheet list. -/
def parseStringList : List Value → Option (List String)
  | [] => some []
  | .vstr s :: vs => (parseStringList vs).map (fun l => s :: l)
  | _ => none

/-- Modelled from the spec: serialization of the whole configuration record
(no serializer exists in the repository); the six fields are emitted in
declaration order. -/
def serializeConfig (r : ConfigRecord) : Value :=
  .vlist [.vstr r.doxyfile, .vstr r.mainProjectUrl,
          .vlist (serializeEntryList r.linksNavbar1),
          .vlist (serializeEntryList r.linksNavbar2),
          .vlist (r.stylesheets.map Value.vstr),
          .vstr r.themeColor]

/-- Modelled from the spec: parser inverting `serializeConfig` (no parser
exists in the repository). -/
def parseConfig : Value → Option ConfigRecord
  | .vlist [.vstr d, .vstr u, .vlist n1, .vlist n2, .vlist ss, .vstr tc] => do
      let l1 ← parseEntryList n1
      let l2 ← parseEntryList n2
      let sl ← parseStringList ss
      pure { doxyfile := d, mainProjectUrl := u, linksNavbar1 := l1,
             linksNavbar2 := l2, stylesheets := sl, themeColor := tc }
  | _ => none

/-- Modelled from the spec: the record's only lifecycle operation is being
"read once at build time"; no operation mutates a field, so a read at any
point of the build observes the declared record.  The `Nat` argument stands
for the read's position in the build. -/
def readConfig : Nat → ConfigRecord :=
  fun _ => tephraConfig

/-- C1 (counterexample): it is false that every entry of both navigation
lists is a tuple of exactly three components — the second entry of
`LINKS_NAVBAR2`, the raw-HTML Discussions link, is a two-component tuple. -/
theorem c1_counterexample :
    ¬ ((∀ e ∈ LINKS_NAVBAR1, NavEntry.numComponents e = 3) ∧
       (∀ e ∈ LINKS_NAVBAR2, NavEntry.numComponents e = 3)) := by
  intro h
  have h2 := h.2
    (NavEntry.htmlOnly
      "<a href=\"https://github.com/Dolkar/Tephra/discussions\">Discussions</a>" [])
    (by simp [LINKS_NAVBAR2])
  simp [NavEntry.numComponents] at h2

/-- C1 (amended): every entry of `LINKS_NAVBAR1` is a three-component tuple
(label, target, sub-links); the entries of `LINKS_NAVBAR2` have 3, 2 and 3
components respectively — its second entry is a two-component tuple of a
raw-HTML markup string and a nested sub-link list. -/
theorem c1_amended :
    LINKS_NAVBAR1.map NavEntry.numComponents = [3, 3] ∧
    LINKS_NAVBAR2.map NavEntry.numComponents = [3, 2, 3] :=
  ⟨rfl, rfl⟩

/-- C2 (counterexample): the secondary navigation list `LINKS_NAVBAR2` does
not have exactly 2 entries. -/
theorem c2_counterexample : LINKS_NAVBAR2.length ≠ 2 := by
  decide

/-- C2 (amended): the secondary navigation list `LINKS_NAVBAR2` has exactly
3 entries. -/
theorem c2_amended : LINKS_NAVBAR2.length = 3 := rfl

/-- C3: the configuration record consists of exactly the six fields of the
data model — any record equals the tuple of its six projections — and the
concrete record carries the six constants declared in mcssconf.py (the
field types — strings, entry lists, string list — hold by construction of
`ConfigRecord`). -/
theorem c3_record_shape :
    (∀ r : ConfigRecord,
       r = { doxyfile := r.doxyfile, mainProjectUrl := r.mainProjectUrl,
             linksNavbar1 := r.linksNavbar1, linksNavbar2 := r.linksNavbar2,
             stylesheets := r.stylesheets, themeColor := r.themeColor }) ∧
    tephraConfig.doxyfile = DOXYFILE ∧
    tephraConfig.mainProjectUrl = MAIN_PROJECT_URL ∧
    tephraConfig.linksNavbar1 = LINKS_NAVBAR1 ∧
    tephraConfig.linksNavbar2 = LINKS_NAVBAR2 ∧
    tephraConfig.stylesheets = STYLESHEETS ∧
    tephraConfig.themeColor = THEME_COLOR :=
  ⟨fun _ => rfl, rfl, rfl, rfl, rfl, rfl, rfl⟩

/-- C4: `THEME_COLOR` is exactly the string `#2c1b15`, which matches the
pattern `#` followed by 6 hexadecimal digits. -/
theorem c4_theme_color :
    THEME_COLOR = "#2c1b15" ∧ isHexColorFormat THEME_COLOR = true :=
  ⟨rfl, by decide⟩

/-- C5: `LINKS_NAVBAR1` has exactly 2 entries, labelled in order
"User Guide" then "Examples". -/
theorem c5_navbar1 :
    LINKS_NAVBAR1.length = 2 ∧
    LINKS_NAVBAR1.map NavEntry.label = ["User Guide", "Examples"] :=
  ⟨rfl, rfl⟩

/-- C6: `STYLESHEETS` has exactly 9 entries, kept in declared order: the
first declared stylesheet (the fonts URL) is at the head and the last
declared one (pygments-console) at the tail. -/
theorem c6_stylesheets :
    STYLESHEETS.length = 9 ∧
    STYLESHEETS.head? =
      some "https://fonts.googleapis.com/css?family=Source+Sans+Pro:400,400i,600,600i%7CSource+Code+Pro:400,400i,600" ∧
    STYLESHEETS.getLast? = some "./mcss/css/pygments-console.css" :=
  ⟨rfl, rfl, rfl⟩

/-- C7: every entry of `STYLESHEETS` is either an absolute URL or a path
relative to the output directory. -/
theorem c7_stylesheet_locations :
    STYLESHEETS.all (fun s => isAbsoluteUrl s || isOutputRelativePath s) = true := by
  decide

set_option maxRecDepth 8000 in
/-- C8: round-trip — serializing the configuration record and re-parsing it
yields the original record, for this record's values. -/
theorem c8_roundtrip :
    parseConfig (serializeConfig tephraConfig) = some tephraConfig :=
  rfl

/-- C9: the record is immutable — every read of the configuration, at any
point of the build, observes the same values, namely the declared record. -/
theorem c9_immutable :
    (∀ t u : Nat, readConfig t = readConfig u) ∧
    (∀ t : Nat, readConfig t = tephraConfig) :=
  ⟨fun _ _ => rfl, fun _ => rfl⟩

/-- C10: for every entry of both navigation lists, the nested sub-entries
list is empty — the five entries' sub-link components are all `[]`. -/
theorem c10_no_sublinks :
    (LINKS_NAVBAR1 ++ LINKS_NAVBAR2).map NavEntry.sub = [[], [], [], [], []] :=
  rfl

end Tephra
